import Mathlib

/-!
Shallow embedding of the credit-ledger / staging-job core of the
Magic-Staging repository.

The embedded code:
* `app/api/projects/[id]/route.ts` — the staging `POST` handler
  (credit guard, `stagingJob.create`, `validateStagingRequest`,
  `processRoomStaging` call, success / failure branches, credit
  decrement, `usageLog.create`);
* `lib/gemini-production.ts` (src/unnamed/part_009) —
  `validateStagingRequest`; `processRoomStaging` is treated as an
  opaque call whose outcome (success, structured failure, thrown
  error) is an input of the handler;
* `app/api/webhooks/stripe/route.ts` — the Stripe webhook `POST`
  handler, `handlePaymentSucceeded`, `handlePaymentFailed`;
* `prisma/schema.prisma` (in DEVELOPMENT_GUIDE.md) — the row shapes;
  note that `Transaction.stripePaymentIntentId` carries no `@unique`
  attribute, so inserts never collide.

The store is modelled per organization (every claim is about a single
organization's account), fault-free and sequential: each handler
invocation is one atomic step of a trace, except where an interleaved
model is built explicitly (the race analysis at the end of the
definitions). The webhook secret is assumed configured.
-/

namespace MagicStaging

/-- A row of `staging_jobs` (the fields the staging handler touches).
`processingCompletedAt` is modelled as a flag (set or not). -/
structure StagingJobRow where
  jobId : String
  organizationId : String
  prompt : String
  status : String
  errorMessage : Option String
  processingCompletedAt : Bool
  aiCostCents : Option Int
  deriving DecidableEq

/-- A row of `usage_logs`. -/
structure UsageLogRow where
  organizationId : String
  userId : Option String
  action : String
  resourceId : Option String
  aiCostCents : Option Int
  billableCredits : Int
  deriving DecidableEq

/-- A row of `transactions`. `stripePaymentIntentId` has no unique
constraint in the schema. -/
structure TransactionRow where
  organizationId : String
  stripePaymentIntentId : String
  amountCents : Int
  currency : String
  status : String
  roomsPurchased : Int
  deriving DecidableEq

/-- A row of `staged_images` (the fields the handler sets). -/
structure StagedImageRow where
  stagingJobId : String
  organizationId : String
  deriving DecidableEq

/-- The persistent store restricted to one organization:
`Organization.creditsRemaining` plus the tables the two handlers
write. -/
structure DB where
  creditsRemaining : Int
  stagingJobs : List StagingJobRow
  stagedImages : List StagedImageRow
  transactions : List TransactionRow
  usageLogs : List UsageLogRow
  deriving DecidableEq

/-- `StagingJobRequest` from `lib/gemini-production.ts` (the fields
`validateStagingRequest` inspects; `preferences` only feeds the prompt
text and is omitted). -/
structure StagingJobRequest where
  roomImageId : String
  organizationId : String
  projectId : String
  prompt : Option String
  style : String
  deriving DecidableEq

/-- Result shape of `validateStagingRequest`. -/
structure ValidationResult where
  valid : Bool
  error : Option String
  deriving DecidableEq

/-- `validStyles` from `validateStagingRequest`. -/
def validStyles : List String :=
  ["modern", "traditional", "minimalist", "luxury", "contemporary", "rustic"]

/-- `validateStagingRequest` from `lib/gemini-production.ts`: empty
strings are falsy in JS, so `!request.roomImageId` is `= ""` here. -/
def validateStagingRequest (r : StagingJobRequest) : ValidationResult :=
  if r.roomImageId = "" then ⟨false, some "Room image ID is required"⟩
  else if r.organizationId = "" then ⟨false, some "Organization ID is required"⟩
  else if r.projectId = "" then ⟨false, some "Project ID is required"⟩
  else if r.style ∈ validStyles then ⟨true, none⟩
  else ⟨false, some "Invalid style selection"⟩

/-- Outcome of the opaque `processRoomStaging` call: success (with the
already-rounded `Math.round(estimatedCost * 100)` in cents and the
stored image path/url), a structured failure (`success: false` with
`error`, which `processRoomStaging` always sets on failure), or a
thrown error caught by the route's `catch (processingError)`. -/
inductive AIResult where
  | ok (costCents : Int) (stagedPath : String) (stagedUrl : String)
  | err (msg : String)
  | thrown (msg : String)
  deriving DecidableEq

/-- The JSON reply of the staging `POST` handler (status code plus the
body fields the claims mention). -/
structure StagingResponse where
  status : Nat
  errorMsg : Option String
  creditsRemaining : Option Int
  success : Bool
  stagingJobId : Option String
  deriving DecidableEq

/-- `db.stagingJob.update({where: {id}, data: {status: 'failed',
errorMessage, processingCompletedAt}})`. -/
def setJobFailed (db : DB) (jobId : String) (msg : Option String) : DB :=
  { db with stagingJobs := db.stagingJobs.map fun j =>
      if j.jobId = jobId then
        { j with status := "failed", errorMessage := msg, processingCompletedAt := true }
      else j }

/-- `db.stagingJob.update({where: {id}, data: {status: 'completed',
processingCompletedAt, aiCostCents}})`, as the per-row update. -/
def completeUpd (jobId : String) (costCents : Int) (j : StagingJobRow) : StagingJobRow :=
  if j.jobId = jobId then
    { j with status := "completed", processingCompletedAt := true,
             aiCostCents := some costCents }
  else j

/-- Control state of the staging handler at the moment the
`processRoomStaging` call would begin: either it already replied
(with the store as left behind), or it is about to call the AI
provider from state `db` with the created job's id. -/
inductive PreAI where
  | reply (db : DB) (resp : StagingResponse)
  | callAI (db : DB) (jobId : String)
  deriving DecidableEq

/-- The staging `POST` handler of `app/api/projects/[id]/route.ts` up
to (but not including) the `processRoomStaging` call, in source order:
zod parse (`zodOk`), the `creditsRemaining < 1` guard (402), the room
image lookup (`roomImageFound`, 404), `stagingJob.create` with status
`processing`, then `validateStagingRequest` (job set `failed`, 400 on
invalid). -/
def stagingPreAI (db : DB) (zodOk roomImageFound : Bool)
    (req : StagingJobRequest) (newJobId : String) : PreAI :=
  if zodOk = false then
    .reply db ⟨400, some "Invalid input data", none, false, none⟩
  else if db.creditsRemaining < 1 then
    .reply db ⟨402, some "Insufficient credits", some db.creditsRemaining, false, none⟩
  else if roomImageFound = false then
    .reply db ⟨404, some "Room image not found", none, false, none⟩
  else
    let job : StagingJobRow :=
      ⟨newJobId, req.organizationId, req.prompt.getD "", "processing", none, false, none⟩
    let db1 : DB := { db with stagingJobs := db.stagingJobs ++ [job] }
    let v := validateStagingRequest req
    if v.valid then
      .callAI db1 newJobId
    else
      .reply (setJobFailed db1 newJobId v.error) ⟨400, v.error, none, false, none⟩

/-- The full staging `POST` handler: `stagingPreAI`, then the
`processRoomStaging` outcome. On success: job set `completed` with
`aiCostCents`, `stagedImage.create`, `organization.update`
(`creditsRemaining: {decrement: 1}`), `usageLog.create` (action
`room_staged`, `billableCredits: 1`), reply 200 with the stale
`userWithOrg.organization.creditsRemaining - 1`. On `success: false`:
job set `failed` with `result.error`, reply 500 with
`result.error || 'AI processing failed'`. On a thrown error: job set
`failed` with the message, reply 500 `AI processing failed`. -/
def stagingPost (db : DB) (zodOk roomImageFound : Bool)
    (req : StagingJobRequest) (userId newJobId : String)
    (ai : AIResult) : DB × StagingResponse :=
  match stagingPreAI db zodOk roomImageFound req newJobId with
  | .reply db' resp => (db', resp)
  | .callAI db1 jobId =>
    match ai with
    | .ok costCents _path _url =>
      let db2 : DB := { db1 with stagingJobs := db1.stagingJobs.map (completeUpd jobId costCents) }
      let db3 : DB := { db2 with stagedImages :=
          db2.stagedImages ++ [⟨jobId, req.organizationId⟩] }
      let db4 : DB := { db3 with creditsRemaining := db3.creditsRemaining - 1 }
      let db5 : DB := { db4 with usageLogs := db4.usageLogs ++
          [⟨req.organizationId, some userId, "room_staged", some jobId, some costCents, 1⟩] }
      (db5, ⟨200, none, some (db.creditsRemaining - 1), true, some jobId⟩)
    | .err msg =>
      (setJobFailed db1 jobId (some msg),
        ⟨500, some (if msg = "" then "AI processing failed" else msg), none, false, none⟩)
    | .thrown msg =>
      (setJobFailed db1 jobId (some msg),
        ⟨500, some "AI processing failed", none, false, none⟩)

/-- One field of a Stripe `payment_intent` event object as destructured
by the webhook handlers (`metadata` fields may be absent). -/
structure PaymentIntent where
  id : String
  amount : Int
  currency : String
  metaOrganizationId : Option String
  metaUserId : Option String
  metaPackageId : Option String
  metaCredits : Option String
  deriving DecidableEq

/-- JS falsiness of an optional string: absent or empty. -/
def isFalsy : Option String → Bool
  | none => true
  | some s => s = ""

/-- The longest digit run at the head of a character list. -/
def leadingDigits (cs : List Char) : List Char :=
  cs.takeWhile Char.isDigit

/-- Value of a digit list read in base 10. -/
def digitsToNat (cs : List Char) : Nat :=
  cs.foldl (fun a c => 10 * a + (c.toNat - 48)) 0

/-- JS `parseInt(s, 10)`: skip leading whitespace, read an optional
sign, then the longest digit run; `NaN` (here `none`) when that run is
empty. A trailing non-digit suffix is ignored, as in JS. -/
def parseIntJS (s : String) : Option Int :=
  let cs := s.toList.dropWhile fun c => c = ' ' || c = '\t' || c = '\n' || c = '\r'
  let core : List Char → Bool → Option Int := fun ds neg =>
    let d := leadingDigits ds
    if d.isEmpty then none
    else some (if neg then -(digitsToNat d : Int) else (digitsToNat d : Int))
  match cs with
  | '-' :: rest => core rest true
  | '+' :: rest => core rest false
  | _ => core cs false

/-- `handlePaymentSucceeded` of `app/api/webhooks/stripe/route.ts`:
return early when `organizationId`, `userId` or `credits` is falsy or
`parseInt(credits, 10)` is `NaN` or `<= 0`; otherwise, in one
transaction, insert a `Transaction` row (status `succeeded`), increment
`creditsRemaining` by `creditsToAdd`, and insert a `UsageLog` row
(action `credits_purchased`, `billableCredits: -creditsToAdd`). No
lookup of `stripePaymentIntentId` is made and the schema puts no unique
constraint on it, so the insert always succeeds. -/
def handlePaymentSucceeded (db : DB) (pi : PaymentIntent) : DB :=
  if isFalsy pi.metaOrganizationId || isFalsy pi.metaUserId || isFalsy pi.metaCredits then
    db
  else
    match parseIntJS (pi.metaCredits.getD "") with
    | none => db
    | some n =>
      if n ≤ 0 then db
      else
        { db with
          transactions := db.transactions ++
            [⟨pi.metaOrganizationId.getD "", pi.id, pi.amount, pi.currency.toUpper,
              "succeeded", n⟩],
          creditsRemaining := db.creditsRemaining + n,
          usageLogs := db.usageLogs ++
            [⟨pi.metaOrganizationId.getD "", pi.metaUserId, "credits_purchased",
              some pi.id, none, -n⟩] }

/-- `handlePaymentFailed`: record a failed `Transaction` row when
`organizationId` is present; never touches the balance. -/
def handlePaymentFailed (db : DB) (pi : PaymentIntent) : DB :=
  if isFalsy pi.metaOrganizationId then db
  else
    { db with transactions := db.transactions ++
        [⟨pi.metaOrganizationId.getD "", pi.id, pi.amount, pi.currency.toUpper,
          "failed", 0⟩] }

/-- An inbound webhook request as the handler perceives it: signature
header missing, signature verification failed (`constructEvent`
threw), or a verified event with its type and payment-intent object. -/
inductive StripeEvent where
  | sigMissing
  | sigInvalid
  | valid (eventType : String) (pi : PaymentIntent)
  deriving DecidableEq

/-- The webhook handler's JSON reply. -/
structure WebhookResponse where
  status : Nat
  received : Bool
  errorMsg : Option String
  deriving DecidableEq

/-- The webhook `POST` handler (secret assumed configured): 400 when
the `stripe-signature` header is missing or verification fails, with
no store access at all; otherwise dispatch on `event.type` (unhandled
types are logged only) and reply 200 `{received: true}`. -/
def webhookPost (db : DB) (ev : StripeEvent) : DB × WebhookResponse :=
  match ev with
  | .sigMissing => (db, ⟨400, false, some "Missing stripe signature"⟩)
  | .sigInvalid => (db, ⟨400, false, some "Invalid signature"⟩)
  | .valid t pi =>
    if t = "payment_intent.succeeded" then
      (handlePaymentSucceeded db pi, ⟨200, true, none⟩)
    else if t = "payment_intent.payment_failed" then
      (handlePaymentFailed db pi, ⟨200, true, none⟩)
    else
      (db, ⟨200, true, none⟩)

/-- One handler invocation against the organization's store. -/
inductive Op where
  | staging (zodOk roomImageFound : Bool) (req : StagingJobRequest)
      (userId newJobId : String) (ai : AIResult)
  | webhook (ev : StripeEvent)

/-- Store after one handler invocation (sequential semantics: each
invocation is one atomic step of the trace). -/
def step (db : DB) : Op → DB
  | .staging z r req u j ai => (stagingPost db z r req u j ai).1
  | .webhook ev => (webhookPost db ev).1

/-- Store after a sequence of handler invocations. -/
def run (db : DB) (ops : List Op) : DB :=
  ops.foldl step db

/-- Sum of `billableCredits` over all usage-log rows (the repository's
only per-mutation ledger). -/
def ledgerSum (db : DB) : Int :=
  (db.usageLogs.map UsageLogRow.billableCredits).sum

/-- Number of usage-log rows that would be refund entries for a given
job (action `refund` tied to the job id). The handlers only ever write
actions `room_staged` and `credits_purchased`. -/
def refundEntriesFor (db : DB) (jobId : String) : Nat :=
  (db.usageLogs.filter fun l =>
    l.action = "refund" && l.resourceId = some jobId).length

/-- Status of the job row with the given id, when present. -/
def jobStatus (db : DB) (jobId : String) : Option String :=
  (db.stagingJobs.find? fun j => j.jobId = jobId).map StagingJobRow.status

/-- No usage-log row of the store is a refund entry. -/
def RefundFree (db : DB) : Prop :=
  ∀ l ∈ db.usageLogs, l.action ≠ "refund"

/-!
Interleaved model of two concurrent staging requests, projected onto
the two balance-touching actions of the handler: the
`creditsRemaining < 1` guard read, and the later
`creditsRemaining: {decrement: 1}` update that only happens after the
AI call succeeds. The source wraps neither in a transaction with the
other, so the two actions of each request are separate atomic steps
that an interleaving may separate.
-/

/-- Progress of one staging request through its balance-touching
actions (`working` = guard passed, AI call in flight, assumed to
succeed). -/
inductive ReqPhase where
  | start
  | working
  | succeeded
  | rejected
  deriving DecidableEq

/-- One atomic action of a request against the shared balance:
from `start`, evaluate the guard (402 when `balance < 1`); from
`working`, apply the decrement and reply success. -/
def phaseStep (bal : Int) : ReqPhase → Int × ReqPhase
  | .start => if bal < 1 then (bal, .rejected) else (bal, .working)
  | .working => (bal - 1, .succeeded)
  | p => (bal, p)

/-- Shared balance plus the phases of two concurrent requests. -/
structure RaceState where
  bal : Int
  t1 : ReqPhase
  t2 : ReqPhase
  deriving DecidableEq

/-- Run one atomic action of the scheduled request
(`true` = request 1). -/
def raceStep (s : RaceState) (pick : Bool) : RaceState :=
  if pick then
    let (b, p) := phaseStep s.bal s.t1
    ⟨b, p, s.t2⟩
  else
    let (b, p) := phaseStep s.bal s.t2
    ⟨b, s.t1, p⟩

/-- Run the two requests under a schedule. -/
def raceRun (s : RaceState) (sched : List Bool) : RaceState :=
  sched.foldl raceStep s

/-- Balance at the moment the AI call begins (`none` when the handler
replied without calling the provider). -/
def preAIBalance : PreAI → Option Int
  | .callAI db _ => some db.creditsRemaining
  | .reply _ _ => none

/-- Fixture: a request that passes `validateStagingRequest`. -/
def reqOk : StagingJobRequest :=
  ⟨"uploads/room.jpg", "org1", "proj1", none, "modern"⟩

/-- Fixture: a store with 5 credits and empty tables. -/
def dbFive : DB := ⟨5, [], [], [], []⟩

/-- Fixture: a store with 0 credits and empty tables. -/
def dbZero : DB := ⟨0, [], [], [], []⟩

/-- Fixture: a succeeded payment intent granting 10 credits. -/
def piTen : PaymentIntent :=
  ⟨"pi_1", 2900, "usd", some "org1", some "user1", some "starter", some "10"⟩

/-- Fixture: a succeeded payment intent with no `credits` metadata. -/
def piNoCredits : PaymentIntent :=
  ⟨"pi_2", 1000, "usd", some "org1", some "user1", none, none⟩

/-- The job row `stagingJob.create` inserts for a request. -/
def createdJob (req : StagingJobRequest) (newJobId : String) : StagingJobRow :=
  ⟨newJobId, req.organizationId, req.prompt.getD "", "processing", none, false, none⟩

theorem stagingPreAI_reply_frame (db : DB) (z r : Bool) (req : StagingJobRequest)
    (j : String) (db' : DB) (resp : StagingResponse)
    (h : stagingPreAI db z r req j = .reply db' resp) :
    db'.creditsRemaining = db.creditsRemaining ∧
    db'.stagedImages = db.stagedImages ∧
    db'.transactions = db.transactions ∧
    db'.usageLogs = db.usageLogs := by
  unfold stagingPreAI at h
  split at h
  · cases h; exact ⟨rfl, rfl, rfl, rfl⟩
  · split at h
    · cases h; exact ⟨rfl, rfl, rfl, rfl⟩
    · split at h
      · cases h; exact ⟨rfl, rfl, rfl, rfl⟩
      · simp only [] at h
        split at h
        · cases h
        · cases h
          simp [setJobFailed]

theorem stagingPreAI_callAI_spec (db : DB) (z r : Bool) (req : StagingJobRequest)
    (j : String) (db1 : DB) (jid : String)
    (h : stagingPreAI db z r req j = .callAI db1 jid) :
    db1 = { db with stagingJobs := db.stagingJobs ++ [createdJob req j] } ∧
    jid = j ∧ 1 ≤ db.creditsRemaining ∧
    (validateStagingRequest req).valid = true := by
  unfold stagingPreAI at h
  split at h
  · cases h
  · rename_i hz
    split at h
    · cases h
    · rename_i hcred
      split at h
      · cases h
      · rename_i hr
        simp only [] at h
        split at h
        · rename_i hv
          cases h
          exact ⟨rfl, rfl, by omega, hv⟩
        · cases h

theorem refund_filter_nil (logs : List UsageLogRow) (jid : String)
    (h : ∀ l ∈ logs, l.action ≠ "refund") :
    (logs.filter fun l => l.action = "refund" && l.resourceId = some jid).length = 0 := by
  induction logs with
  | nil => rfl
  | cons a t ih =>
    have ha : a.action ≠ "refund" := h a (by simp)
    have ht : ∀ l ∈ t, l.action ≠ "refund" := fun l hl => h l (by simp [hl])
    simp [List.filter_cons, ha, ih ht]

theorem refundFree_append (logs : List UsageLogRow) (e : UsageLogRow)
    (h : ∀ l ∈ logs, l.action ≠ "refund") (he : e.action ≠ "refund") :
    ∀ l ∈ logs ++ [e], l.action ≠ "refund" := by
  intro l hl
  rcases List.mem_append.1 hl with h1 | h1
  · exact h l h1
  · simp only [List.mem_singleton] at h1
    subst h1
    exact he

theorem setFailed_map_fresh (l : List StagingJobRow) (j : String) (msg : Option String)
    (h : ∀ jr ∈ l, jr.jobId ≠ j) :
    (l.map fun jr =>
      if jr.jobId = j then
        { jr with status := "failed", errorMessage := msg, processingCompletedAt := true }
      else jr) = l := by
  induction l with
  | nil => rfl
  | cons a t ih =>
    have ha : a.jobId ≠ j := h a (by simp)
    have ht : ∀ jr ∈ t, jr.jobId ≠ j := fun jr hjr => h jr (by simp [hjr])
    simp [ha, ih ht]

theorem validateStagingRequest_invalid (req : StagingJobRequest)
    (h : (validateStagingRequest req).valid = false) :
    ∃ m, validateStagingRequest req = ⟨false, some m⟩ := by
  unfold validateStagingRequest at h ⊢
  split
  · exact ⟨_, rfl⟩
  · split
    · exact ⟨_, rfl⟩
    · split
      · exact ⟨_, rfl⟩
      · split
        · simp_all
        · exact ⟨_, rfl⟩

/-- Every terminal store of one staging-handler invocation: untouched
(an early reply), the created job marked `failed` (validation failure,
provider failure, thrown error), or the full success write-set. -/
theorem stagingPost_state_spec (db : DB) (z r : Bool) (req : StagingJobRequest)
    (u j : String) (ai : AIResult) :
    (stagingPost db z r req u j ai).1 = db ∨
    (∃ msg, (stagingPost db z r req u j ai).1 =
      setJobFailed { db with stagingJobs := db.stagingJobs ++ [createdJob req j] }
        j (some msg)) ∨
    (∃ c, 1 ≤ db.creditsRemaining ∧
      (stagingPost db z r req u j ai).1 = { db with
        creditsRemaining := db.creditsRemaining - 1,
        stagingJobs := (db.stagingJobs ++ [createdJob req j]).map (completeUpd j c),
        stagedImages := db.stagedImages ++ [⟨j, req.organizationId⟩],
        usageLogs := db.usageLogs ++
          [⟨req.organizationId, some u, "room_staged", some j, some c, 1⟩] }) := by
  unfold stagingPost
  split
  · rename_i db' resp heq
    unfold stagingPreAI at heq
    split at heq
    · cases heq; left; rfl
    · split at heq
      · cases heq; left; rfl
      · split at heq
        · cases heq; left; rfl
        · simp only [] at heq
          split at heq
          · cases heq
          · rename_i hv
            cases heq
            obtain ⟨m, hm⟩ := validateStagingRequest_invalid req (by simpa using hv)
            right; left
            exact ⟨m, by simp [hm, createdJob]⟩
  · rename_i db1 jid heq
    obtain ⟨hdb1, hjid, hcred, _⟩ := stagingPreAI_callAI_spec db z r req j db1 jid heq
    subst hdb1; subst hjid
    match ai with
    | .ok c p q =>
      right; right
      exact ⟨c, hcred, rfl⟩
    | .err msg =>
      right; left
      exact ⟨msg, rfl⟩
    | .thrown msg =>
      right; left
      exact ⟨msg, rfl⟩

/-- Every terminal store of `handlePaymentSucceeded`: untouched, or
the grant write-set for the parsed positive credit amount. -/
theorem handlePaymentSucceeded_spec (db : DB) (pi : PaymentIntent) :
    handlePaymentSucceeded db pi = db ∨
    ∃ n, 0 < n ∧ parseIntJS (pi.metaCredits.getD "") = some n ∧
      handlePaymentSucceeded db pi = { db with
        transactions := db.transactions ++
          [⟨pi.metaOrganizationId.getD "", pi.id, pi.amount, pi.currency.toUpper,
            "succeeded", n⟩],
        creditsRemaining := db.creditsRemaining + n,
        usageLogs := db.usageLogs ++
          [⟨pi.metaOrganizationId.getD "", pi.metaUserId, "credits_purchased",
            some pi.id, none, -n⟩] } := by
  unfold handlePaymentSucceeded
  split
  · left; rfl
  · split
    · left; rfl
    · rename_i n hn
      split
      · left; rfl
      · rename_i hle
        right
        exact ⟨n, by omega, hn, rfl⟩

/-- Every terminal store of `handlePaymentFailed`: untouched, or one
appended failed-transaction row. -/
theorem handlePaymentFailed_spec (db : DB) (pi : PaymentIntent) :
    handlePaymentFailed db pi = db ∨
    handlePaymentFailed db pi = { db with transactions := db.transactions ++
      [⟨pi.metaOrganizationId.getD "", pi.id, pi.amount, pi.currency.toUpper,
        "failed", 0⟩] } := by
  unfold handlePaymentFailed
  split
  · left; rfl
  · right; rfl

theorem stagingPost_fail_balance (db : DB) (z r : Bool) (req : StagingJobRequest)
    (u j : String) (ai : AIResult) (hai : ∀ c p q, ai ≠ .ok c p q) :
    ((stagingPost db z r req u j ai).1).creditsRemaining = db.creditsRemaining := by
  unfold stagingPost
  split
  · rename_i db' resp heq
    exact (stagingPreAI_reply_frame db z r req j db' resp heq).1
  · rename_i db1 jid heq
    obtain ⟨hdb1, hjid, _, _⟩ := stagingPreAI_callAI_spec db z r req j db1 jid heq
    subst hdb1
    cases ai with
    | ok c p q => exact absurd rfl (hai c p q)
    | err m => rfl
    | thrown m => rfl

theorem stagingPost_ok_balance (db : DB) (z r : Bool) (req : StagingJobRequest)
    (u j : String) (db1 : DB) (jid : String) (c : Int) (p q : String)
    (h : stagingPreAI db z r req j = .callAI db1 jid) :
    ((stagingPost db z r req u j (.ok c p q)).1).creditsRemaining
      = db.creditsRemaining - 1 := by
  obtain ⟨hdb1, hjid, hcred, _⟩ := stagingPreAI_callAI_spec db z r req j db1 jid h
  subst hdb1
  unfold stagingPost
  rw [h]

/-- Credits granted by `handlePaymentSucceeded` when the metadata is
complete and the credits string parses to a positive amount. -/
theorem handlePaymentSucceeded_grant (db : DB) (pi : PaymentIntent) (n : Int)
    (h1 : isFalsy pi.metaOrganizationId = false)
    (h2 : isFalsy pi.metaUserId = false)
    (h3 : isFalsy pi.metaCredits = false)
    (h4 : parseIntJS (pi.metaCredits.getD "") = some n)
    (h5 : 0 < n) :
    (handlePaymentSucceeded db pi).creditsRemaining = db.creditsRemaining + n := by
  unfold handlePaymentSucceeded
  simp only [h1, h2, h3, h4, Bool.or_self, Bool.or_false, Bool.false_or, if_false,
    Bool.false_eq_true, ite_false]
  rw [if_neg (show ¬ n ≤ 0 by omega)]

/-- One handler invocation preserves `creditsRemaining + ledgerSum`. -/
theorem step_conserve (db : DB) (op : Op) :
    (step db op).creditsRemaining + ledgerSum (step db op) =
      db.creditsRemaining + ledgerSum db := by
  cases op with
  | staging z r req u j ai =>
    rcases stagingPost_state_spec db z r req u j ai with he | ⟨msg, he⟩ | ⟨c, hc, he⟩ <;>
      simp [step, he, setJobFailed, ledgerSum] <;> try omega
  | webhook ev =>
    cases ev with
    | sigMissing => rfl
    | sigInvalid => rfl
    | valid t pi =>
      simp only [step, webhookPost]
      split
      · rcases handlePaymentSucceeded_spec db pi with he | ⟨n, hn, hp, he⟩ <;>
          simp [he, ledgerSum] <;> try omega
      · split
        · rcases handlePaymentFailed_spec db pi with he | he <;> simp [he, ledgerSum]
        · rfl

/-- One handler invocation keeps the balance non-negative. -/
theorem step_nonneg (db : DB) (op : Op) (h : 0 ≤ db.creditsRemaining) :
    0 ≤ (step db op).creditsRemaining := by
  cases op with
  | staging z r req u j ai =>
    rcases stagingPost_state_spec db z r req u j ai with he | ⟨msg, he⟩ | ⟨c, hc, he⟩ <;>
      simp [step, he, setJobFailed] <;> omega
  | webhook ev =>
    cases ev with
    | sigMissing => exact h
    | sigInvalid => exact h
    | valid t pi =>
      simp only [step, webhookPost]
      split
      · rcases handlePaymentSucceeded_spec db pi with he | ⟨n, hn, hp, he⟩ <;>
          simp [he] <;> omega
      · split
        · rcases handlePaymentFailed_spec db pi with he | he <;> simp [he] <;> omega
        · exact h

/-- **C1** (counterexample): with a balance of 5 and a valid request,
the staging handler reaches the `processRoomStaging` call with
`creditsRemaining` still 5, not 4 — the 1-credit decrement has not
been applied when the external AI call begins, contrary to the claim
that the decrement precedes the call. -/
theorem balance_undebited_at_ai_call_start :
    preAIBalance (stagingPreAI dbFive true true reqOk "job1") = some 5 ∧
    dbFive.creditsRemaining = 5 ∧
    preAIBalance (stagingPreAI dbFive true true reqOk "job1") ≠ some (5 - 1) := by
  refine ⟨rfl, rfl, by decide⟩

/-- **C1** (amended): the handler checks `creditsRemaining < 1` before
any work is done, but takes no debit before the provider call:
whenever the handler reaches `processRoomStaging`, the balance at that
point equals the caller's starting balance (which is at least 1), and
the decrement by 1 is applied only in the success branch after the
call returns; a failing call leaves the balance untouched. -/
theorem debit_only_after_ai_success (db : DB) (z r : Bool)
    (req : StagingJobRequest) (u j : String) (db1 : DB) (jid : String)
    (h : stagingPreAI db z r req j = .callAI db1 jid) :
    db1.creditsRemaining = db.creditsRemaining ∧ 1 ≤ db.creditsRemaining ∧
    (∀ c p q, ((stagingPost db z r req u j (.ok c p q)).1).creditsRemaining
        = db.creditsRemaining - 1) ∧
    (∀ m, ((stagingPost db z r req u j (.err m)).1).creditsRemaining
        = db.creditsRemaining) := by
  obtain ⟨hdb1, hjid, hcred, hval⟩ := stagingPreAI_callAI_spec db z r req j db1 jid h
  refine ⟨by rw [hdb1], hcred, ?_, ?_⟩
  · intro c p q
    exact stagingPost_ok_balance db z r req u j db1 jid c p q h
  · intro m
    exact stagingPost_fail_balance db z r req u j (.err m)
      (fun c p q hc => AIResult.noConfusion hc)

theorem debit_only_after_ai_success_witness :
    ((stagingPost dbFive true true reqOk "user1" "job1" (.ok 4 "p" "q")).1).creditsRemaining
      = dbFive.creditsRemaining - 1 :=
  (debit_only_after_ai_success dbFive true true reqOk "user1" "job1"
    { dbFive with stagingJobs := dbFive.stagingJobs ++ [createdJob reqOk "job1"] }
    "job1" rfl).2.2.1 4 "p" "q"

/-- **C2** (counterexample): a staging job that ends `failed` has zero
refund ledger entries, not exactly one: after a provider failure the
job status is `failed` and no refund usage-log row exists for it. -/
theorem failed_job_has_no_refund_entry :
    jobStatus (stagingPost dbFive true true reqOk "user1" "job1"
      (.err "provider error")).1 "job1" = some "failed" ∧
    refundEntriesFor (stagingPost dbFive true true reqOk "user1" "job1"
      (.err "provider error")).1 "job1" = 0 ∧
    refundEntriesFor (stagingPost dbFive true true reqOk "user1" "job1"
      (.err "provider error")).1 "job1" ≠ 1 := by
  refine ⟨rfl, rfl, by decide⟩

/-- **C2** (amended): the code writes no refund entries at all and
needs none for failed jobs: starting from a store with no refund
entries, after any staging invocation no job (failed or completed)
has a refund entry, and a job that fails (provider error or thrown
error) leaves the balance exactly as it was — no debit was ever
taken, so there is nothing to restore. Completed jobs likewise have
no refund entry; their debit is the single `room_staged` usage row. -/
theorem no_refund_entries_and_failed_leaves_balance (db : DB) (z r : Bool)
    (req : StagingJobRequest) (u j : String) (ai : AIResult)
    (hfree : RefundFree db) :
    (∀ jid, refundEntriesFor (stagingPost db z r req u j ai).1 jid = 0) ∧
    (∀ m, ai = .err m →
      ((stagingPost db z r req u j ai).1).creditsRemaining = db.creditsRemaining) ∧
    (∀ m, ai = .thrown m →
      ((stagingPost db z r req u j ai).1).creditsRemaining = db.creditsRemaining) := by
  refine ⟨?_, ?_, ?_⟩
  · intro jid
    rcases stagingPost_state_spec db z r req u j ai with he | ⟨msg, he⟩ | ⟨c, hc, he⟩
    · rw [he]
      exact refund_filter_nil db.usageLogs jid hfree
    · rw [he]
      exact refund_filter_nil db.usageLogs jid hfree
    · rw [he]
      exact refund_filter_nil _ jid
        (refundFree_append db.usageLogs
          ⟨req.organizationId, some u, "room_staged", some j, some c, 1⟩ hfree
          (by simp))
  · intro m hm
    subst hm
    exact stagingPost_fail_balance db z r req u j (.err m)
      (fun c p q hc => AIResult.noConfusion hc)
  · intro m hm
    subst hm
    exact stagingPost_fail_balance db z r req u j (.thrown m)
      (fun c p q hc => AIResult.noConfusion hc)

theorem no_refund_entries_and_failed_leaves_balance_witness :
    refundEntriesFor (stagingPost dbFive true true reqOk "user1" "job1"
      (.err "boom")).1 "job1" = 0 ∧
    ((stagingPost dbFive true true reqOk "user1" "job1" (.err "boom")).1).creditsRemaining
      = dbFive.creditsRemaining :=
  ⟨(no_refund_entries_and_failed_leaves_balance dbFive true true reqOk "user1" "job1"
      (.err "boom") (fun l hl => by simp [dbFive] at hl)).1 "job1",
   (no_refund_entries_and_failed_leaves_balance dbFive true true reqOk "user1" "job1"
      (.err "boom") (fun l hl => by simp [dbFive] at hl)).2.1 "boom" rfl⟩

/-- **C3** (counterexample): the webhook handler never checks whether
`stripePaymentIntentId` was seen before (and the schema puts no unique
constraint on it), so delivering the same succeeded-payment event
twice grants the credits twice: balance 10 after one delivery, 20
after two — not equal, contrary to the idempotence claim. -/
theorem webhook_redelivery_double_grants :
    ((webhookPost dbZero (.valid "payment_intent.succeeded" piTen)).1).creditsRemaining
      = 10 ∧
    ((webhookPost (webhookPost dbZero
        (.valid "payment_intent.succeeded" piTen)).1
        (.valid "payment_intent.succeeded" piTen)).1).creditsRemaining = 20 ∧
    ((webhookPost (webhookPost dbZero
        (.valid "payment_intent.succeeded" piTen)).1
        (.valid "payment_intent.succeeded" piTen)).1).creditsRemaining ≠
      ((webhookPost dbZero (.valid "payment_intent.succeeded" piTen)).1).creditsRemaining := by
  refine ⟨rfl, rfl, by decide⟩

/-- **C3** (amended): every delivery of a well-formed succeeded-payment
event re-applies the grant — after N deliveries the balance has grown
by N times the credit amount (so N deliveries equal 1 delivery only
when N = 1), and each delivery is answered 200 `received: true`. -/
theorem webhook_redelivery_regrants_each_time (db : DB) (pi : PaymentIntent)
    (n : Int) (N : Nat)
    (h1 : isFalsy pi.metaOrganizationId = false)
    (h2 : isFalsy pi.metaUserId = false)
    (h3 : isFalsy pi.metaCredits = false)
    (h4 : parseIntJS (pi.metaCredits.getD "") = some n)
    (h5 : 0 < n) :
    (run db (List.replicate N
        (.webhook (.valid "payment_intent.succeeded" pi)))).creditsRemaining
      = db.creditsRemaining + N * n ∧
    (webhookPost db (.valid "payment_intent.succeeded" pi)).2 = ⟨200, true, none⟩ := by
  constructor
  · induction N generalizing db with
    | zero => simp [run]
    | succ k ih =>
      have hrun : run db (List.replicate (k + 1)
          (Op.webhook (.valid "payment_intent.succeeded" pi)))
          = run (step db (Op.webhook (.valid "payment_intent.succeeded" pi)))
              (List.replicate k (Op.webhook (.valid "payment_intent.succeeded" pi))) := by
        rw [List.replicate_succ]
        rfl
      have hstep : (step db (Op.webhook
          (.valid "payment_intent.succeeded" pi))).creditsRemaining
          = db.creditsRemaining + n := by
        show (handlePaymentSucceeded db pi).creditsRemaining = db.creditsRemaining + n
        exact handlePaymentSucceeded_grant db pi n h1 h2 h3 h4 h5
      rw [hrun, ih _, hstep]
      push_cast
      ring
  · rfl

theorem webhook_redelivery_regrants_each_time_witness :
    (run dbZero (List.replicate 2
        (.webhook (.valid "payment_intent.succeeded" piTen)))).creditsRemaining
      = dbZero.creditsRemaining + (2 : Nat) * (10 : Int) ∧
    (webhookPost dbZero (.valid "payment_intent.succeeded" piTen)).2
      = ⟨200, true, none⟩ :=
  webhook_redelivery_regrants_each_time dbZero piTen 10 2 rfl rfl rfl rfl (by decide)

/-- **C4**: starting from a non-negative balance, every sequence of
handler invocations (staging debits and webhook grants) keeps the
stored `creditsRemaining` non-negative at every point between
operations (every prefix of a trace is itself a trace). -/
theorem balance_nonneg_over_runs (db : DB) (ops : List Op)
    (h : 0 ≤ db.creditsRemaining) :
    0 ≤ (run db ops).creditsRemaining := by
  induction ops generalizing db with
  | nil => exact h
  | cons op t ih => exact ih (step db op) (step_nonneg db op h)

theorem balance_nonneg_over_runs_witness :
    0 ≤ (run dbFive
      [.staging true true reqOk "user1" "job1" (.ok 4 "p" "q"),
       .webhook (.valid "payment_intent.succeeded" piTen)]).creditsRemaining :=
  balance_nonneg_over_runs dbFive
    [.staging true true reqOk "user1" "job1" (.ok 4 "p" "q"),
     .webhook (.valid "payment_intent.succeeded" piTen)] (by decide)

/-- **C5** (counterexample): the running sum of usage-log amounts does
not equal the balance: after one grant of 10 from an empty store the
balance is 10 but the only log row carries `billableCredits = -10`
(the code logs purchases negatively and debits positively), so the sum
is -10 ≠ 10. -/
theorem ledger_sum_not_balance :
    ledgerSum (webhookPost dbZero (.valid "payment_intent.succeeded" piTen)).1 = -10 ∧
    ((webhookPost dbZero (.valid "payment_intent.succeeded" piTen)).1).creditsRemaining
      = 10 ∧
    ledgerSum (webhookPost dbZero (.valid "payment_intent.succeeded" piTen)).1 ≠
      ((webhookPost dbZero
        (.valid "payment_intent.succeeded" piTen)).1).creditsRemaining := by
  refine ⟨rfl, rfl, by decide⟩

/-- **C5** (amended): the conserved quantity is the balance *plus* the
running sum of `billableCredits` (spends are logged as +1, grants as
-amount): over every trace it stays equal to its initial value, i.e.
the balance always equals the seed balance minus the signed sum of
usage-log amounts. -/
theorem balance_plus_ledger_sum_conserved (db : DB) (ops : List Op) :
    (run db ops).creditsRemaining + ledgerSum (run db ops) =
      db.creditsRemaining + ledgerSum db := by
  induction ops generalizing db with
  | nil => rfl
  | cons op t ih => exact (ih (step db op)).trans (step_conserve db op)

/-- **C6**: a well-formed staging request arriving when the balance is
below 1 is rejected synchronously with 402, the body names
insufficient credits and reports `creditsRemaining`, and the store is
returned unchanged — no job row, no usage-log row, nothing. -/
theorem insufficient_credits_rejected_402 (db : DB) (r : Bool)
    (req : StagingJobRequest) (u j : String) (ai : AIResult)
    (h : db.creditsRemaining < 1) :
    stagingPost db true r req u j ai =
      (db, ⟨402, some "Insufficient credits", some db.creditsRemaining, false, none⟩) := by
  have hpre : stagingPreAI db true r req j =
      .reply db ⟨402, some "Insufficient credits", some db.creditsRemaining, false, none⟩ := by
    unfold stagingPreAI
    simp [h]
  unfold stagingPost
  rw [hpre]

theorem insufficient_credits_rejected_402_witness :
    stagingPost dbZero true true reqOk "user1" "job1" (.ok 4 "p" "q") =
      (dbZero, ⟨402, some "Insufficient credits", some dbZero.creditsRemaining,
        false, none⟩) :=
  insufficient_credits_rejected_402 dbZero true reqOk "user1" "job1"
    (.ok 4 "p" "q") (by decide)

/-- **C7** (counterexample): with balance 1, the interleaving in which
both requests evaluate the `creditsRemaining < 1` guard before either
applies its decrement lets both succeed and drives the balance to -1 —
the code provides no serialization of guard and decrement, so it is
not the case that exactly one of two concurrent reserves succeeds. -/
theorem race_both_debit_last_credit :
    raceRun ⟨1, .start, .start⟩ [true, false, true, false]
      = ⟨-1, .succeeded, .succeeded⟩ := by
  rfl

/-- **C7** (amended): only when the two requests happen to run
serially (one request's decrement lands before the other's guard read)
does exactly one succeed while the other is rejected with
insufficient credits; interleaved schedules can instead let both
succeed (see the counterexample). -/
theorem serialized_race_exactly_one_succeeds :
    raceRun ⟨1, .start, .start⟩ [true, true, false, false]
      = ⟨0, .succeeded, .rejected⟩ ∧
    raceRun ⟨1, .start, .start⟩ [false, false, true, true]
      = ⟨0, .rejected, .succeeded⟩ :=
  ⟨rfl, rfl⟩

/-- **C8**: a webhook request with a missing `stripe-signature` header
or a failing signature verification is answered 400 and the store is
returned untouched — no transaction row, no balance change, no usage
log. -/
theorem bad_signature_rejected_no_state_change (db : DB) :
    webhookPost db .sigMissing
      = (db, ⟨400, false, some "Missing stripe signature"⟩) ∧
    webhookPost db .sigInvalid
      = (db, ⟨400, false, some "Invalid signature"⟩) :=
  ⟨rfl, rfl⟩

/-- **C9**: a verified `payment_intent.succeeded` event whose metadata
lacks `organizationId`, `userId` or `credits` (absent or empty), or
whose `credits` does not `parseInt` to a positive integer, changes
nothing in the store and is still answered 200 `received: true`. -/
theorem invalid_metadata_noop_200 (db : DB) (pi : PaymentIntent)
    (h : isFalsy pi.metaOrganizationId = true ∨ isFalsy pi.metaUserId = true ∨
         isFalsy pi.metaCredits = true ∨
         parseIntJS (pi.metaCredits.getD "") = none ∨
         ∃ n, parseIntJS (pi.metaCredits.getD "") = some n ∧ n ≤ 0) :
    webhookPost db (.valid "payment_intent.succeeded" pi) = (db, ⟨200, true, none⟩) := by
  have hdb : handlePaymentSucceeded db pi = db := by
    unfold handlePaymentSucceeded
    rcases h with h | h | h | h | ⟨n, hn, hle⟩
    · simp [h]
    · simp [h]
    · simp [h]
    · split
      · rfl
      · rw [h]
    · split
      · rfl
      · rw [hn]
        simp [hle]
  show (handlePaymentSucceeded db pi, (⟨200, true, none⟩ : WebhookResponse))
      = (db, ⟨200, true, none⟩)
  rw [hdb]

theorem invalid_metadata_noop_200_witness :
    webhookPost dbFive (.valid "payment_intent.succeeded" piNoCredits)
      = (dbFive, ⟨200, true, none⟩) :=
  invalid_metadata_noop_200 dbFive piNoCredits (Or.inr (Or.inr (Or.inl rfl)))

/-- **C10**: when a request passes the credit guard and creates its
job row but then fails — request validation failure, provider failure
(`success: false`), or a thrown processing error — the balance, usage
logs, staged images and transactions are all unchanged; the sole state
change is the appended job row now marked `failed`, carrying an error
message and a completion timestamp and no cost, and no staged-image
row exists for it. (`hfresh`: the created job id is fresh, as Prisma
cuids are.) -/
theorem post_create_failure_frame (db : DB) (req : StagingJobRequest)
    (u j : String) (ai : AIResult)
    (hcred : ¬ db.creditsRemaining < 1)
    (hfresh : ∀ jr ∈ db.stagingJobs, jr.jobId ≠ j)
    (hfail : (validateStagingRequest req).valid = false ∨
             (∃ m, ai = .err m) ∨ (∃ m, ai = .thrown m)) :
    ((stagingPost db true true req u j ai).1).creditsRemaining = db.creditsRemaining ∧
    ((stagingPost db true true req u j ai).1).usageLogs = db.usageLogs ∧
    ((stagingPost db true true req u j ai).1).stagedImages = db.stagedImages ∧
    ((stagingPost db true true req u j ai).1).transactions = db.transactions ∧
    ∃ e, ((stagingPost db true true req u j ai).1).stagingJobs =
      db.stagingJobs ++
        [⟨j, req.organizationId, req.prompt.getD "", "failed", some e, true, none⟩] := by
  by_cases hv : (validateStagingRequest req).valid = true
  · have hpre : stagingPreAI db true true req j =
        .callAI { db with stagingJobs := db.stagingJobs ++ [createdJob req j] } j := by
      unfold stagingPreAI
      simp [hcred, hv, createdJob]
    rcases hfail with hbad | ⟨m, hm⟩ | ⟨m, hm⟩
    · rw [hv] at hbad
      cases hbad
    all_goals
      subst hm
      unfold stagingPost
      rw [hpre]
      refine ⟨rfl, rfl, rfl, rfl, m, ?_⟩
      show ((db.stagingJobs ++ [createdJob req j]).map fun jr =>
        if jr.jobId = j then
          { jr with status := "failed", errorMessage := some m,
                    processingCompletedAt := true }
        else jr) = _
      rw [List.map_append, setFailed_map_fresh db.stagingJobs j (some m) hfresh]
      simp [createdJob]
  · obtain ⟨m, hm⟩ := validateStagingRequest_invalid req (by simpa using hv)
    have hpre : stagingPreAI db true true req j =
        .reply (setJobFailed { db with stagingJobs := db.stagingJobs ++ [createdJob req j] }
          j (some m)) ⟨400, some m, none, false, none⟩ := by
      unfold stagingPreAI
      simp [hcred, hm, createdJob, setJobFailed]
    unfold stagingPost
    rw [hpre]
    refine ⟨rfl, rfl, rfl, rfl, m, ?_⟩
    show ((db.stagingJobs ++ [createdJob req j]).map fun jr =>
      if jr.jobId = j then
        { jr with status := "failed", errorMessage := some m,
                  processingCompletedAt := true }
      else jr) = _
    rw [List.map_append, setFailed_map_fresh db.stagingJobs j (some m) hfresh]
    simp [createdJob]

theorem post_create_failure_frame_witness :
    ((stagingPost dbFive true true reqOk "user1" "job1" (.err "boom")).1).creditsRemaining
      = dbFive.creditsRemaining ∧
    ((stagingPost dbFive true true reqOk "user1" "job1" (.err "boom")).1).usageLogs
      = dbFive.usageLogs ∧
    ((stagingPost dbFive true true reqOk "user1" "job1" (.err "boom")).1).stagedImages
      = dbFive.stagedImages ∧
    ((stagingPost dbFive true true reqOk "user1" "job1" (.err "boom")).1).transactions
      = dbFive.transactions ∧
    ∃ e, ((stagingPost dbFive true true reqOk "user1" "job1" (.err "boom")).1).stagingJobs
      = dbFive.stagingJobs ++
        [⟨"job1", reqOk.organizationId, reqOk.prompt.getD "", "failed", some e,
          true, none⟩] :=
  post_create_failure_frame dbFive reqOk "user1" "job1" (.err "boom")
    (by decide) (fun jr hjr => by simp [dbFive] at hjr)
    (Or.inr (Or.inl ⟨"boom", rfl⟩))

end MagicStaging
